import Mathlib

/-!
Shallow embedding of the data-aggregation and mutation core of the
construction-site management app (`src/services/api.ts`, record shapes from
`src/types.ts`).

Modelling conventions:
* JS numbers that hold money/quantities are modelled as `Int` (the spec and
  the code treat them as exact amounts).
* The wall clock is a parameter: read views that call `new Date()` take the
  caller's current date string (`YYYY-MM-DD`) and, for the dashboard, the
  current (0-based) month and year, exactly the three values the source
  extracts from `new Date()`.
* `crypto.randomUUID()` results are parameters: each mutation takes the
  freshly generated id(s) as explicit `String` arguments.
* Mutations return `(Except JsError α) × Store`: the second component is the
  store after the call (unchanged when the call throws).
* JS truthiness in `x || d` is embedded by `jsOrNum` / `jsOrStr`
  (`0`, `''`, `null`/`undefined` are falsy), and `!workerId` on a
  `string | null` by `none` or the empty string.
* `Array.prototype.sort` with the date comparator
  `(a, b) => new Date(b.Date).getTime() - new Date(a.Date).getTime()` is
  embedded as a stable insertion sort by a descending integer date key;
  `dateKey` is order-isomorphic to `getTime` on well-formed `YYYY-MM-DD`
  strings (lexicographic in year, month, day) and sends malformed strings
  to a single default value, matching `NaN` comparisons leaving order
  unconstrained only up to the properties proved here (none depend on the
  relative order of entries).
-/

namespace Arrahman

/-- Models `'Online' | 'Offline'` from `types.ts`. -/
inductive SiteStatus where
  | online
  | offline
deriving DecidableEq, Repr

structure Site where
  SiteID : String
  SiteName : String
  Location : String
  OwnerName : String
  OwnerContact : String
  Budget : Int
  TotalArea : String
  Status : SiteStatus
  AmountReceived : Int
  AgreementFileID : Option String := none
  SitePlanFileID : Option String := none
  DriveFolderID : Option String := none
deriving DecidableEq, Repr

structure Worker where
  WorkerID : String
  WorkerName : String
  Contact : Option String := none
  DefaultDailyWage : Int
deriving DecidableEq, Repr

structure Material where
  MaterialID : String
  MaterialName : String
  Unit : String
  DefaultValue : Int
deriving DecidableEq, Repr

structure DailyLog where
  LogID : String
  SiteID : String
  Date : String
  LogEntry : String
deriving DecidableEq, Repr

structure SiteWorkerLog where
  LogID : String
  SiteID : String
  Date : String
  WorkerID : String
  WorkerName : String
  SalaryPaid : Int
  PaidStatus : Bool
deriving DecidableEq, Repr

structure SiteMaterialLog where
  LogID : String
  SiteID : String
  Date : String
  MaterialID : String
  MaterialName : String
  Unit : String
  QuantityUsed : Int
  DefaultValue : Int
  TotalCost : Int
deriving DecidableEq, Repr

structure GalleryImage where
  ImageID : String
  SiteID : String
  DateUploaded : String
  ImageFileID : String
  ImageUrl : String
  Description : String
deriving DecidableEq, Repr

/-- The in-memory mock database: the seven module-level collections of
`api.ts`. -/
structure Store where
  sites : List Site
  workers : List Worker
  materials : List Material
  dailyLogs : List DailyLog
  siteWorkerLogs : List SiteWorkerLog
  siteMaterialLogs : List SiteMaterialLog
  galleryImages : List GalleryImage
deriving DecidableEq, Repr

/-- Models `throw new Error(message)`. -/
structure JsError where
  message : String
deriving DecidableEq, Repr

/-- JS `v || d` on numbers: `v` when truthy (nonzero), else `d`. -/
def jsOrNum (v : Option Int) (d : Int) : Int :=
  match v with
  | some x => if x = 0 then d else x
  | none => d

/-- JS `v || d` on strings: `v` when truthy (nonempty), else `d`. -/
def jsOrStr (v : Option String) (d : String) : String :=
  match v with
  | some s => if s.isEmpty then d else s
  | none => d

/-- Split a character list at `'-'` separators (the `YYYY-MM-DD` shape). -/
def splitDash (cs : List Char) : List (List Char) :=
  match cs with
  | [] => [[]]
  | c :: rest =>
    let r := splitDash rest
    if c == '-' then [] :: r
    else
      match r with
      | [] => [[c]]
      | h :: t => (c :: h) :: t

def digitVal (c : Char) : Option Nat :=
  if '0' ≤ c ∧ c ≤ '9' then some (c.toNat - '0'.toNat) else none

/-- Decimal value of a nonempty all-digit character list. -/
def natOfDigits (cs : List Char) : Option Nat :=
  match cs with
  | [] => none
  | _ => cs.foldl (fun acc c => do
      let a ← acc
      let d ← digitVal c
      pure (a * 10 + d)) (some 0)

/-- The year/month/day components of a well-formed `YYYY-MM-DD` string. -/
def dateParts (s : String) : Option (Nat × Nat × Nat) :=
  match (splitDash s.data).map natOfDigits with
  | [some y, some m, some d] => some (y, m, d)
  | _ => none

/-- Integer key standing in for `new Date(s).getTime()` on a `YYYY-MM-DD`
string: strictly monotone in (year, month, day); malformed strings collapse
to `0`. Only used to order log lists, never compared against claims. -/
def dateKey (s : String) : Int :=
  match dateParts s with
  | some (y, m, d) => (y : Int) * 10000 + (m : Int) * 100 + (d : Int)
  | none => 0

/-- Embeds `list.sort((a, b) => new Date(b).getTime() - new Date(a).getTime())` over the key:
stable sort, newest date first. -/
def sortByDateDesc (key : α → String) (l : List α) : List α :=
  List.insertionSort (fun a b => dateKey (key b) ≤ dateKey (key a)) l

/-- Embeds `new Date(s).getMonth() === m && new Date(s).getFullYear() === y` with `m`
0-based; an unparseable date gives `NaN` components and the comparison is
false. -/
def monthMatches (s : String) (m y : Int) : Bool :=
  match dateParts s with
  | some (ly, lm, _) => ((lm : Int) - 1 == m) && ((ly : Int) == y)
  | none => false

structure Expenses where
  totalExpenses : Int
  workerExpense : Int
  materialExpense : Int
deriving DecidableEq, Repr

structure SiteDetailsData where
  site : Site
  logs : List DailyLog
  workerLogs : List SiteWorkerLog
  materialLogs : List SiteMaterialLog
  gallery : List GalleryImage
  expenses : Expenses
deriving DecidableEq, Repr

structure DashboardData where
  onlineSites : Nat
  offlineSites : Nat
  todayWorkers : Nat
  todayMaterials : Nat
  todayExpense : Int
  monthExpense : Int
deriving DecidableEq, Repr

structure TodayWorker extends SiteWorkerLog where
  SiteName : String
  DefaultDailyWage : Int
deriving DecidableEq, Repr

structure OverallMaterialLog extends SiteMaterialLog where
  SiteName : String
deriving DecidableEq, Repr

/-- Embeds `getSiteDetails(siteId)`. -/
def getSiteDetails (siteId : String) (st : Store) : Except JsError SiteDetailsData :=
  match st.sites.find? (fun s => s.SiteID == siteId) with
  | none => .error ⟨"Site not found"⟩
  | some site =>
    let logs := sortByDateDesc (fun l => l.Date) (st.dailyLogs.filter (fun l => l.SiteID == siteId))
    let siteWorkers := sortByDateDesc (fun l => l.Date) (st.siteWorkerLogs.filter (fun l => l.SiteID == siteId))
    let siteMaterials := sortByDateDesc (fun l => l.Date) (st.siteMaterialLogs.filter (fun l => l.SiteID == siteId))
    let gallery := sortByDateDesc (fun g => g.DateUploaded) (st.galleryImages.filter (fun g => g.SiteID == siteId))
    let workerExpense := siteWorkers.foldl (fun acc log => acc + log.SalaryPaid) 0
    let materialExpense := siteMaterials.foldl (fun acc log => acc + log.TotalCost) 0
    .ok { site := site
          logs := logs
          workerLogs := siteWorkers
          materialLogs := siteMaterials
          gallery := gallery
          expenses := { totalExpenses := workerExpense + materialExpense
                        workerExpense := workerExpense
                        materialExpense := materialExpense } }

/-- Enrichment applied by `getTodayWorkers` to each selected log: the spread
`{...log, SiteName, DefaultDailyWage}`. -/
def enrichTodayWorker (st : Store) (log : SiteWorkerLog) : TodayWorker :=
  let site := st.sites.find? (fun s => s.SiteID == log.SiteID)
  let worker := st.workers.find? (fun w => w.WorkerID == log.WorkerID)
  { toSiteWorkerLog := log
    SiteName := jsOrStr (site.map (fun s => s.SiteName)) "Unknown Site"
    DefaultDailyWage := jsOrNum (worker.map (fun w => w.DefaultDailyWage)) 0 }

/-- Embeds `getTodayWorkers()`; `today` is the caller's current date string. -/
def getTodayWorkers (today : String) (st : Store) : List TodayWorker :=
  let onlineSiteIds := (st.sites.filter (fun s => s.Status == .online)).map
    (fun s => s.SiteID)
  (st.siteWorkerLogs.filter
      (fun log => log.Date == today && onlineSiteIds.contains log.SiteID)).map
    (enrichTodayWorker st)

/-- Embeds `getOverallMaterialsLog()`. -/
def getOverallMaterialsLog (st : Store) : List OverallMaterialLog :=
  (sortByDateDesc (fun l => l.Date) st.siteMaterialLogs).map (fun log =>
    { toSiteMaterialLog := log
      SiteName := jsOrStr ((st.sites.find? (fun s => s.SiteID == log.SiteID)).map
        (fun s => s.SiteName)) "Unknown Site" })

/-- One `forEach` body of `getProfileDashboardData`: accumulates
`(todayExpense, monthExpense)` from one log's expense value. -/
def dashStep (todayStr : String) (m y : Int) (date : String) (value : Int)
    (acc : Int × Int) : Int × Int :=
  let expense := jsOrNum (some value) 0
  let acc1 := if date == todayStr then (acc.1 + expense, acc.2) else acc
  if monthMatches date m y then (acc1.1, acc1.2 + expense) else acc1

/-- Embeds `getProfileDashboardData()`; `todayStr`, `currentMonth` (0-based) and
`currentYear` are the three values the source reads from `new Date()`. -/
def getProfileDashboardData (todayStr : String) (currentMonth currentYear : Int)
    (st : Store) : DashboardData :=
  let onlineSites := (st.sites.filter (fun s => s.Status == .online)).length
  let offlineSites := st.sites.length - onlineSites
  let todayWorkers := (st.siteWorkerLogs.filter (fun l => l.Date == todayStr)).length
  let todayMaterials := (st.siteMaterialLogs.filter (fun l => l.Date == todayStr)).length
  let acc1 := st.siteWorkerLogs.foldl
    (fun acc log => dashStep todayStr currentMonth currentYear log.Date log.SalaryPaid acc)
    (0, 0)
  let acc2 := st.siteMaterialLogs.foldl
    (fun acc log => dashStep todayStr currentMonth currentYear log.Date log.TotalCost acc)
    acc1
  { onlineSites := onlineSites
    offlineSites := offlineSites
    todayWorkers := todayWorkers
    todayMaterials := todayMaterials
    todayExpense := acc2.1
    monthExpense := acc2.2 }

/-- Input shape of `addNewSite` (`Omit<Site, 'SiteID' | 'Status' | 'AmountReceived'>`). -/
structure SiteInput where
  SiteName : String
  Location : String
  OwnerName : String
  OwnerContact : String
  Budget : Int
  TotalArea : String
  AgreementFileID : Option String := none
  SitePlanFileID : Option String := none
  DriveFolderID : Option String := none
deriving DecidableEq, Repr

/-- Input shape of `addNewWorker` (`Omit<Worker, 'WorkerID'>`). -/
structure WorkerInput where
  WorkerName : String
  Contact : Option String := none
  DefaultDailyWage : Int
deriving DecidableEq, Repr

/-- Input shape of `addNewMaterial` (`Omit<Material, 'MaterialID'>`). -/
structure MaterialInput where
  MaterialName : String
  Unit : String
  DefaultValue : Int
deriving DecidableEq, Repr

/-- Input shape of `addDailyLog` (`Omit<DailyLog, 'LogID'>`). -/
structure DailyLogInput where
  SiteID : String
  Date : String
  LogEntry : String
deriving DecidableEq, Repr

/-- Input shape of `addDailyWorker`. -/
structure DailyWorkerInput where
  SiteID : String
  Date : String
  WorkerID : Option String
  WorkerName : String
  newWorker : Option WorkerInput
deriving DecidableEq, Repr

/-- Input shape of `addDailyMaterial` (`Omit<SiteMaterialLog, 'LogID' | 'TotalCost'>`). -/
structure MaterialLogInput where
  SiteID : String
  Date : String
  MaterialID : String
  MaterialName : String
  Unit : String
  QuantityUsed : Int
  DefaultValue : Int
deriving DecidableEq, Repr

/-- Embeds `addNewSite(siteData)`; `uuid` is the generated `SiteID`. -/
def addNewSite (d : SiteInput) (uuid : String) (st : Store) :
    Except JsError Site × Store :=
  let newSite : Site :=
    { SiteID := uuid, SiteName := d.SiteName, Location := d.Location
      OwnerName := d.OwnerName, OwnerContact := d.OwnerContact
      Budget := d.Budget, TotalArea := d.TotalArea
      Status := .online, AmountReceived := 0
      AgreementFileID := d.AgreementFileID
      SitePlanFileID := d.SitePlanFileID
      DriveFolderID := d.DriveFolderID }
  (.ok newSite, { st with sites := st.sites ++ [newSite] })

/-- Replace the first site matching `siteId` by `f` of it: `sites.find(...)`
followed by an in-place mutation of the found object. -/
def updateFirstSite (l : List Site) (siteId : String) (f : Site → Site) :
    List Site :=
  match l with
  | [] => []
  | s :: rest =>
    if s.SiteID == siteId then f s :: rest
    else s :: updateFirstSite rest siteId f

/-- Embeds `updateSiteStatus(siteId, status)`; `{ success: true }` is modelled as
`Unit`. -/
def updateSiteStatus (siteId : String) (status : SiteStatus) (st : Store) :
    Except JsError Unit × Store :=
  if (st.sites.find? (fun s => s.SiteID == siteId)).isSome then
    (.ok (), { st with
      sites := updateFirstSite st.sites siteId (fun s => { s with Status := status }) })
  else
    (.error ⟨"Site not found"⟩, st)

/-- Embeds `addNewWorker(workerData)`; `uuid` is the generated `WorkerID`. -/
def addNewWorker (d : WorkerInput) (uuid : String) (st : Store) :
    Except JsError Worker × Store :=
  let newWorker : Worker :=
    { WorkerID := uuid, WorkerName := d.WorkerName
      Contact := d.Contact, DefaultDailyWage := d.DefaultDailyWage }
  (.ok newWorker, { st with workers := st.workers ++ [newWorker] })

/-- Embeds `addNewMaterial(materialData)`; `uuid` is the generated `MaterialID`. -/
def addNewMaterial (d : MaterialInput) (uuid : String) (st : Store) :
    Except JsError Material × Store :=
  let newMaterial : Material :=
    { MaterialID := uuid, MaterialName := d.MaterialName
      Unit := d.Unit, DefaultValue := d.DefaultValue }
  (.ok newMaterial, { st with materials := st.materials ++ [newMaterial] })

/-- Embeds `addDailyLog(logData)`; `uuid` is the generated `LogID`. -/
def addDailyLog (d : DailyLogInput) (uuid : String) (st : Store) :
    Except JsError DailyLog × Store :=
  let newLog : DailyLog :=
    { LogID := uuid, SiteID := d.SiteID, Date := d.Date, LogEntry := d.LogEntry }
  (.ok newLog, { st with dailyLogs := st.dailyLogs ++ [newLog] })

/-- Embeds `addDailyWorker(logData)`; `workerUuid` is the id generated for an inline
new worker, `logUuid` the id generated for the log entry. JS `!workerId` is
true for `null` and for the empty string. -/
def addDailyWorker (d : DailyWorkerInput) (workerUuid logUuid : String)
    (st : Store) : Except JsError (SiteWorkerLog × Option Worker) × Store :=
  let reg : Option String × Option Worker × Store :=
    match d.newWorker with
    | some nw =>
      let w : Worker :=
        { WorkerID := workerUuid, WorkerName := nw.WorkerName
          Contact := nw.Contact, DefaultDailyWage := nw.DefaultDailyWage }
      (some workerUuid, some w, { st with workers := st.workers ++ [w] })
    | none => (d.WorkerID, none, st)
  match reg with
  | (workerId, newWorkerObj, st1) =>
    match workerId with
    | none => (.error ⟨"Worker ID is missing"⟩, st1)
    | some wid =>
      if wid.isEmpty then (.error ⟨"Worker ID is missing"⟩, st1)
      else
        let workerLog : SiteWorkerLog :=
          { LogID := logUuid, SiteID := d.SiteID, Date := d.Date
            WorkerID := wid, WorkerName := d.WorkerName
            SalaryPaid := 0, PaidStatus := false }
        (.ok (workerLog, newWorkerObj),
         { st1 with siteWorkerLogs := st1.siteWorkerLogs ++ [workerLog] })

/-- Embeds `addDailyMaterial(logData)`; `uuid` is the generated `LogID`. -/
def addDailyMaterial (d : MaterialLogInput) (uuid : String) (st : Store) :
    Except JsError SiteMaterialLog × Store :=
  let totalCost := d.QuantityUsed * d.DefaultValue
  let newLog : SiteMaterialLog :=
    { LogID := uuid, SiteID := d.SiteID, Date := d.Date
      MaterialID := d.MaterialID, MaterialName := d.MaterialName
      Unit := d.Unit, QuantityUsed := d.QuantityUsed
      DefaultValue := d.DefaultValue, TotalCost := totalCost }
  (.ok newLog, { st with siteMaterialLogs := st.siteMaterialLogs ++ [newLog] })

/-- Replace the first worker log matching `logId` by `f` of it. -/
def updateFirstWorkerLog (l : List SiteWorkerLog) (logId : String)
    (f : SiteWorkerLog → SiteWorkerLog) : List SiteWorkerLog :=
  match l with
  | [] => []
  | x :: rest =>
    if x.LogID == logId then f x :: rest
    else x :: updateFirstWorkerLog rest logId f

/-- Embeds `updateWorkerSalary({ logId, amount, status })`. -/
def updateWorkerSalary (logId : String) (amount : Int) (status : Bool)
    (st : Store) : Except JsError Unit × Store :=
  if (st.siteWorkerLogs.find? (fun l => l.LogID == logId)).isSome then
    (.ok (), { st with
      siteWorkerLogs := updateFirstWorkerLog st.siteWorkerLogs logId
        (fun l => { l with SalaryPaid := amount, PaidStatus := status }) })
  else
    (.error ⟨"Worker log not found"⟩, st)

/-- Embeds `uploadFile(fileData, siteId, fileType, description)`; `uuid` is the id
generated for the file, `imgUuid` the `ImageID` generated for a gallery
entry, `today` the caller's current date string. -/
def uploadFile (siteId fileType description uuid imgUuid today : String)
    (st : Store) : Except JsError Unit × Store :=
  if (st.sites.find? (fun s => s.SiteID == siteId)).isSome then
    let fileId := "file-" ++ uuid
    let imageUrl := "https://picsum.photos/seed/" ++ fileId ++ "/400/400"
    if fileType == "agreement" then
      (.ok (), { st with
        sites := updateFirstSite st.sites siteId
          (fun s => { s with AgreementFileID := some fileId }) })
    else if fileType == "plan" then
      (.ok (), { st with
        sites := updateFirstSite st.sites siteId
          (fun s => { s with SitePlanFileID := some fileId }) })
    else if fileType == "gallery" then
      (.ok (), { st with
        galleryImages := st.galleryImages ++
          [{ ImageID := imgUuid, SiteID := siteId, DateUploaded := today
             ImageFileID := fileId, ImageUrl := imageUrl
             Description := description }] })
    else
      (.ok (), st)
  else
    (.error ⟨"Site not found"⟩, st)

/-- Every mutation of the API, with its generated ids and clock reading as
payload: the possible single steps of the store. -/
inductive Op where
  | addNewSite (d : SiteInput) (uuid : String)
  | updateSiteStatus (siteId : String) (status : SiteStatus)
  | addNewWorker (d : WorkerInput) (uuid : String)
  | addNewMaterial (d : MaterialInput) (uuid : String)
  | addDailyLog (d : DailyLogInput) (uuid : String)
  | addDailyWorker (d : DailyWorkerInput) (workerUuid logUuid : String)
  | addDailyMaterial (d : MaterialLogInput) (uuid : String)
  | updateWorkerSalary (logId : String) (amount : Int) (status : Bool)
  | uploadFile (siteId fileType description uuid imgUuid today : String)
deriving DecidableEq, Repr

/-- The store after one mutation (unchanged when the mutation throws). -/
def applyOp (op : Op) (st : Store) : Store :=
  match op with
  | .addNewSite d uuid => (addNewSite d uuid st).2
  | .updateSiteStatus siteId status => (updateSiteStatus siteId status st).2
  | .addNewWorker d uuid => (addNewWorker d uuid st).2
  | .addNewMaterial d uuid => (addNewMaterial d uuid st).2
  | .addDailyLog d uuid => (addDailyLog d uuid st).2
  | .addDailyWorker d wu lu => (addDailyWorker d wu lu st).2
  | .addDailyMaterial d uuid => (addDailyMaterial d uuid st).2
  | .updateWorkerSalary logId amount status =>
      (updateWorkerSalary logId amount status st).2
  | .uploadFile siteId fileType description uuid imgUuid today =>
      (uploadFile siteId fileType description uuid imgUuid today st).2

/-- A small concrete store (one Online site, one worker log, one material
log) used by several witnesses. -/
def c1Store : Store :=
  { sites := [{ SiteID := "s-1", SiteName := "Greenwood Villa",
                Location := "Koramangala", OwnerName := "Mr. Sharma",
                OwnerContact := "9876543210", Budget := 5000000,
                TotalArea := "2400 sqft", Status := .online,
                AmountReceived := 2000000 }]
    workers := []
    materials := []
    dailyLogs := []
    siteWorkerLogs :=
      [{ LogID := "swl-1", SiteID := "s-1", Date := "2023-10-26",
         WorkerID := "w-1", WorkerName := "Ramesh Kumar",
         SalaryPaid := 800, PaidStatus := true }]
    siteMaterialLogs :=
      [{ LogID := "sml-1", SiteID := "s-1", Date := "2023-10-26",
         MaterialID := "m-1", MaterialName := "Cement", Unit := "bag",
         QuantityUsed := 50, DefaultValue := 450, TotalCost := 22500 }]
    galleryImages := [] }

/-- Concrete store for the C3 witness: an Online site s-1 and an Offline
site s-2, with one worker log dated 2024-01-05 on each. -/
def c3Store : Store :=
  { sites := [{ SiteID := "s-1", SiteName := "A", Location := "L",
                OwnerName := "O", OwnerContact := "C", Budget := 1,
                TotalArea := "T", Status := .online, AmountReceived := 0 },
              { SiteID := "s-2", SiteName := "B", Location := "L",
                OwnerName := "O", OwnerContact := "C", Budget := 1,
                TotalArea := "T", Status := .offline, AmountReceived := 0 }]
    workers := [], materials := [], dailyLogs := []
    siteWorkerLogs :=
      [{ LogID := "swl-1", SiteID := "s-1", Date := "2024-01-05",
         WorkerID := "w-1", WorkerName := "R", SalaryPaid := 800,
         PaidStatus := true },
       { LogID := "swl-2", SiteID := "s-2", Date := "2024-01-05",
         WorkerID := "w-2", WorkerName := "S", SalaryPaid := 0,
         PaidStatus := false }]
    siteMaterialLogs := [], galleryImages := [] }

/-- The c3Store worker log on the Online site. -/
def c3LogOnline : SiteWorkerLog :=
  { LogID := "swl-1", SiteID := "s-1", Date := "2024-01-05",
    WorkerID := "w-1", WorkerName := "R", SalaryPaid := 800,
    PaidStatus := true }

/-- The c3Store worker log on the Offline site. -/
def c3LogOffline : SiteWorkerLog :=
  { LogID := "swl-2", SiteID := "s-2", Date := "2024-01-05",
    WorkerID := "w-2", WorkerName := "S", SalaryPaid := 0,
    PaidStatus := false }

/-- Concrete store for the C4 witness: the master wage of w-1 is now 950
while the only log was created when it was 800 under the frozen name copy
"Ramesh Kumar". -/
def c4Store : Store :=
  { sites := [{ SiteID := "s-1", SiteName := "A", Location := "L",
                OwnerName := "O", OwnerContact := "C", Budget := 1,
                TotalArea := "T", Status := .online, AmountReceived := 0 }]
    workers := [{ WorkerID := "w-1", WorkerName := "Ramesh K.",
                  DefaultDailyWage := 950 }]
    materials := [], dailyLogs := []
    siteWorkerLogs :=
      [{ LogID := "swl-1", SiteID := "s-1", Date := "2024-01-05",
         WorkerID := "w-1", WorkerName := "Ramesh Kumar",
         SalaryPaid := 800, PaidStatus := true }]
    siteMaterialLogs := [], galleryImages := [] }

/-- The single worker log of `c4Store`. -/
def c4Log : SiteWorkerLog :=
  { LogID := "swl-1", SiteID := "s-1", Date := "2024-01-05",
    WorkerID := "w-1", WorkerName := "Ramesh Kumar",
    SalaryPaid := 800, PaidStatus := true }

lemma foldl_add_eq (f : α → Int) : ∀ (l : List α) (a : Int),
    l.foldl (fun acc x => acc + f x) a = a + (l.map f).sum
  | [], a => by simp
  | x :: l, a => by
    simp only [List.foldl_cons, List.map_cons, List.sum_cons]
    rw [foldl_add_eq f l (a + f x)]
    ring

lemma sum_map_sortByDateDesc (key : α → String) (f : α → Int) (l : List α) :
    ((sortByDateDesc key l).map f).sum = (l.map f).sum :=
  ((List.perm_insertionSort _ l).map f).sum_eq

lemma foldl_sort_sum (key : α → String) (f : α → Int) (l : List α) :
    (sortByDateDesc key l).foldl (fun acc x => acc + f x) 0 = (l.map f).sum := by
  rw [foldl_add_eq, sum_map_sortByDateDesc, zero_add]

/-- C1. For every site id present in the store, `getSiteDetails` returns
an expense breakdown in which `workerExpense` is the sum of `SalaryPaid`
over that site's worker logs, `materialExpense` is the sum of `TotalCost`
over that site's material logs, and `totalExpenses` is their sum. -/
theorem getSiteDetails_expense_breakdown (siteId : String) (st : Store)
    (data : SiteDetailsData) (h : getSiteDetails siteId st = .ok data) :
    data.expenses.workerExpense
        = ((st.siteWorkerLogs.filter (fun l => l.SiteID == siteId)).map
            (fun l => l.SalaryPaid)).sum
      ∧ data.expenses.materialExpense
        = ((st.siteMaterialLogs.filter (fun l => l.SiteID == siteId)).map
            (fun l => l.TotalCost)).sum
      ∧ data.expenses.totalExpenses
        = data.expenses.workerExpense + data.expenses.materialExpense := by
  unfold getSiteDetails at h
  cases hf : st.sites.find? (fun s => s.SiteID == siteId) with
  | none => rw [hf] at h; exact absurd h (by simp)
  | some site =>
    rw [hf] at h
    simp only [Except.ok.injEq] at h
    subst h
    exact ⟨foldl_sort_sum (fun l : SiteWorkerLog => l.Date)
             (fun l => l.SalaryPaid) _,
           foldl_sort_sum (fun l : SiteMaterialLog => l.Date)
             (fun l => l.TotalCost) _, rfl⟩

/-- Concrete instance of C1 on `c1Store`. -/
theorem getSiteDetails_expense_breakdown_witness :
    ∃ data, getSiteDetails "s-1" c1Store = .ok data
      ∧ data.expenses.workerExpense = 800
      ∧ data.expenses.materialExpense = 22500
      ∧ data.expenses.totalExpenses = 23300 := by
  have hok : getSiteDetails "s-1" c1Store
      = .ok { site := c1Store.sites.head (by simp [c1Store])
              logs := []
              workerLogs := c1Store.siteWorkerLogs
              materialLogs := c1Store.siteMaterialLogs
              gallery := []
              expenses := { totalExpenses := 23300
                            workerExpense := 800
                            materialExpense := 22500 } } := by
    rfl
  have h := getSiteDetails_expense_breakdown "s-1" c1Store _ hok
  exact ⟨_, hok, by rw [h.1]; rfl, by rw [h.2.1]; rfl,
         by rw [h.2.2, h.1, h.2.1]; rfl⟩

lemma jsOrNum_some_zero (x : Int) : jsOrNum (some x) 0 = x := by
  rcases eq_or_ne x 0 with h | h <;> simp [jsOrNum, h]

/-- No operation of the API removes or rewrites an existing material-log
entry: the collection only ever grows by appended records. -/
lemma applyOp_preserves_materialLogs (op : Op) (st : Store) :
    ∀ log ∈ st.siteMaterialLogs, log ∈ (applyOp op st).siteMaterialLogs := by
  intro log hmem
  cases op with
  | addNewSite d u => simpa [applyOp, addNewSite] using hmem
  | updateSiteStatus sid status =>
    simp only [applyOp, updateSiteStatus]
    split <;> simpa using hmem
  | addNewWorker d u => simpa [applyOp, addNewWorker] using hmem
  | addNewMaterial d u => simpa [applyOp, addNewMaterial] using hmem
  | addDailyLog d u => simpa [applyOp, addDailyLog] using hmem
  | addDailyWorker d wu lu =>
    simp only [applyOp, addDailyWorker]
    cases hnw : d.newWorker with
    | none =>
      cases hw : d.WorkerID with
      | none => simpa [hnw, hw] using hmem
      | some wid =>
        simp only [hnw, hw]
        split <;> simpa using hmem
    | some nw =>
      simp only [hnw]
      split <;> simpa using hmem
  | addDailyMaterial d u =>
    simp only [applyOp, addDailyMaterial, List.mem_append]
    exact Or.inl hmem
  | updateWorkerSalary logId amount status =>
    simp only [applyOp, updateWorkerSalary]
    split <;> simpa using hmem
  | uploadFile siteId fileType description uuid imgUuid today =>
    simp only [applyOp, uploadFile]
    split
    · split
      · simpa using hmem
      · split
        · simpa using hmem
        · split <;> simpa using hmem
    · simpa using hmem

/-- C2. A material-log entry created by `addDailyMaterial` with quantity
`Q` and unit value `V` stores `TotalCost = Q * V`, and every subsequent API
operation (there is no operation rewriting material logs, in particular none
that reacts to a change of the master material's `DefaultValue`) keeps the
stored entry intact. -/
theorem addDailyMaterial_totalCost_invariant (d : MaterialLogInput)
    (uuid : String) (st : Store) :
    (∃ nl, (addDailyMaterial d uuid st).1 = .ok nl
      ∧ nl.TotalCost = d.QuantityUsed * d.DefaultValue
      ∧ nl.QuantityUsed = d.QuantityUsed
      ∧ nl.DefaultValue = d.DefaultValue
      ∧ (addDailyMaterial d uuid st).2.siteMaterialLogs
        = st.siteMaterialLogs ++ [nl])
    ∧ ∀ (op : Op) (st' : Store) (log : SiteMaterialLog),
        log ∈ st'.siteMaterialLogs → log ∈ (applyOp op st').siteMaterialLogs := by
  exact ⟨⟨_, rfl, rfl, rfl, rfl, rfl⟩,
         fun op st' log h => applyOp_preserves_materialLogs op st' log h⟩

/-- Concrete instance of C2: a created entry has `TotalCost = 10 * 100`, and
it survives a later `addNewMaterial` that re-registers the same material name
with a different master `DefaultValue`. -/
theorem addDailyMaterial_totalCost_invariant_witness :
    (addDailyMaterial
        { SiteID := "s-1", Date := "2024-01-05", MaterialID := "m-1",
          MaterialName := "Cement", Unit := "bag",
          QuantityUsed := 10, DefaultValue := 100 } "sml-9"
        { sites := [], workers := [], materials :=
            [{ MaterialID := "m-1", MaterialName := "Cement", Unit := "bag",
               DefaultValue := 100 }],
          dailyLogs := [], siteWorkerLogs := [], siteMaterialLogs := [],
          galleryImages := [] }).1
      = .ok { LogID := "sml-9", SiteID := "s-1", Date := "2024-01-05",
              MaterialID := "m-1", MaterialName := "Cement", Unit := "bag",
              QuantityUsed := 10, DefaultValue := 100, TotalCost := 1000 }
    ∧ { LogID := "sml-9", SiteID := "s-1", Date := "2024-01-05",
        MaterialID := "m-1", MaterialName := "Cement", Unit := "bag",
        QuantityUsed := 10, DefaultValue := 100,
        TotalCost := 1000 : SiteMaterialLog }
      ∈ (applyOp
          (.addNewMaterial { MaterialName := "Cement", Unit := "bag",
                             DefaultValue := 999 } "m-2")
          (addDailyMaterial
            { SiteID := "s-1", Date := "2024-01-05", MaterialID := "m-1",
              MaterialName := "Cement", Unit := "bag",
              QuantityUsed := 10, DefaultValue := 100 } "sml-9"
            { sites := [], workers := [], materials :=
                [{ MaterialID := "m-1", MaterialName := "Cement", Unit := "bag",
                   DefaultValue := 100 }],
              dailyLogs := [], siteWorkerLogs := [], siteMaterialLogs := [],
              galleryImages := [] }).2).siteMaterialLogs := by
  refine ⟨rfl, ?_⟩
  exact (addDailyMaterial_totalCost_invariant
      { SiteID := "s-1", Date := "2024-01-05", MaterialID := "m-1",
        MaterialName := "Cement", Unit := "bag",
        QuantityUsed := 10, DefaultValue := 100 } "sml-9"
      { sites := [], workers := [], materials :=
          [{ MaterialID := "m-1", MaterialName := "Cement", Unit := "bag",
             DefaultValue := 100 }],
        dailyLogs := [], siteWorkerLogs := [], siteMaterialLogs := [],
        galleryImages := [] }).2
    (.addNewMaterial { MaterialName := "Cement", Unit := "bag",
                       DefaultValue := 999 } "m-2")
    _ _ (by decide)

/-- The first site matching a looked-up id splits the list into an
untouched prefix, the matched site, and an untouched suffix. -/
lemma updateFirstSite_spec :
    ∀ (l : List Site) (siteId : String) (f : Site → Site),
      (l.find? (fun s => s.SiteID == siteId)).isSome →
      ∃ pre s post, l = pre ++ s :: post
        ∧ (∀ x ∈ pre, x.SiteID ≠ siteId)
        ∧ s.SiteID = siteId
        ∧ updateFirstSite l siteId f = pre ++ f s :: post
  | [], _, _, h => by simp at h
  | a :: rest, siteId, f, h => by
    by_cases ha : a.SiteID = siteId
    · exact ⟨[], a, rest, rfl, by simp, ha, by simp [updateFirstSite, ha]⟩
    · have hfind : ((a :: rest).find? (fun s => s.SiteID == siteId)).isSome
          = ((rest).find? (fun s => s.SiteID == siteId)).isSome := by
        simp [List.find?_cons, ha]
      rw [hfind] at h
      obtain ⟨pre, s, post, hsplit, hpre, hs, hupd⟩ :=
        updateFirstSite_spec rest siteId f h
      refine ⟨a :: pre, s, post, by simp [hsplit], ?_, hs, ?_⟩
      · intro x hx
        rcases List.mem_cons.mp hx with hx | hx
        · exact hx ▸ ha
        · exact hpre x hx
      · simp [updateFirstSite, ha, hupd]

/-- C6. `updateSiteStatus` on an absent site id fails with
`"Site not found"` and returns the store untouched; on a present id it
succeeds and only rewrites that site's `Status`, leaving every other site
and every other collection unchanged. -/
theorem updateSiteStatus_contract (siteId : String) (status : SiteStatus)
    (st : Store) :
    (st.sites.find? (fun s => s.SiteID == siteId) = none →
      updateSiteStatus siteId status st = (.error ⟨"Site not found"⟩, st))
    ∧ ((st.sites.find? (fun s => s.SiteID == siteId)).isSome →
      (updateSiteStatus siteId status st).1 = .ok ()
      ∧ ∃ pre s post, st.sites = pre ++ s :: post
          ∧ (∀ x ∈ pre, x.SiteID ≠ siteId)
          ∧ s.SiteID = siteId
          ∧ (updateSiteStatus siteId status st).2
            = { st with sites := pre ++ { s with Status := status } :: post }) := by
  constructor
  · intro hnone
    simp [updateSiteStatus, hnone]
  · intro hsome
    obtain ⟨pre, s, post, hsplit, hpre, hs, hupd⟩ :=
      updateFirstSite_spec st.sites siteId (fun s => { s with Status := status })
        hsome
    refine ⟨by simp [updateSiteStatus, hsome], pre, s, post, hsplit, hpre, hs, ?_⟩
    simp [updateSiteStatus, hsome, hupd]

/-- Concrete instance of C6: the unknown id "s-404" fails and leaves the
store untouched; the known id "s-1" is set Offline. -/
theorem updateSiteStatus_contract_witness :
    updateSiteStatus "s-404" .offline c1Store = (.error ⟨"Site not found"⟩, c1Store)
    ∧ (updateSiteStatus "s-1" .offline c1Store).1 = .ok () := by
  exact ⟨(updateSiteStatus_contract "s-404" .offline c1Store).1 (by decide),
         ((updateSiteStatus_contract "s-1" .offline c1Store).2 (by decide)).1⟩

/-- C7. `addDailyWorker` with neither an existing worker id nor an inline
new-worker payload fails with `"Worker ID is missing"` and leaves the store
(so in particular the lengths of the worker and worker-log collections)
unchanged; with an inline payload the worker is registered first, and the new
log entry carries the freshly generated worker id, `SalaryPaid = 0` and
`PaidStatus = false`. -/
theorem addDailyWorker_contract (d : DailyWorkerInput) (wu lu : String)
    (st : Store) :
    (d.WorkerID = none → d.newWorker = none →
      addDailyWorker d wu lu st = (.error ⟨"Worker ID is missing"⟩, st)
      ∧ (addDailyWorker d wu lu st).2.workers.length = st.workers.length
      ∧ (addDailyWorker d wu lu st).2.siteWorkerLogs.length
        = st.siteWorkerLogs.length)
    ∧ (∀ nw, d.newWorker = some nw → wu ≠ "" →
      ∃ w log, addDailyWorker d wu lu st
          = (.ok (log, some w),
             { st with workers := st.workers ++ [w],
                       siteWorkerLogs := st.siteWorkerLogs ++ [log] })
        ∧ w.WorkerID = wu ∧ w.WorkerName = nw.WorkerName
        ∧ w.DefaultDailyWage = nw.DefaultDailyWage
        ∧ log.WorkerID = wu ∧ log.SiteID = d.SiteID ∧ log.Date = d.Date
        ∧ log.WorkerName = d.WorkerName
        ∧ log.SalaryPaid = 0 ∧ log.PaidStatus = false) := by
  constructor
  · intro hid hnw
    refine ⟨?_, ?_, ?_⟩ <;> simp [addDailyWorker, hid, hnw]
  · intro nw hnw hwu
    have hne : wu.isEmpty = false :=
      Bool.eq_false_iff.mpr (fun h => hwu ((String.isEmpty_iff wu).mp h))
    refine ⟨{ WorkerID := wu, WorkerName := nw.WorkerName,
              Contact := nw.Contact, DefaultDailyWage := nw.DefaultDailyWage },
            { LogID := lu, SiteID := d.SiteID, Date := d.Date,
              WorkerID := wu, WorkerName := d.WorkerName,
              SalaryPaid := 0, PaidStatus := false },
            ?_, rfl, rfl, rfl, rfl, rfl, rfl, rfl, rfl, rfl⟩
    simp [addDailyWorker, hnw, hne]

/-- Concrete instance of C7: both the missing-reference failure and the
inline-registration success on `c1Store`. -/
theorem addDailyWorker_contract_witness :
    addDailyWorker
        { SiteID := "s-1", Date := "2024-01-05", WorkerID := none,
          WorkerName := "Anon", newWorker := none } "w-9" "swl-9" c1Store
      = (.error ⟨"Worker ID is missing"⟩, c1Store)
    ∧ ∃ w log, addDailyWorker
        { SiteID := "s-1", Date := "2024-01-05", WorkerID := none,
          WorkerName := "New Guy",
          newWorker := some { WorkerName := "New Guy",
                              DefaultDailyWage := 700 } } "w-9" "swl-9" c1Store
      = (.ok (log, some w),
         { c1Store with workers := c1Store.workers ++ [w],
                        siteWorkerLogs := c1Store.siteWorkerLogs ++ [log] })
      ∧ w.WorkerID = "w-9" ∧ log.WorkerID = "w-9"
      ∧ log.SalaryPaid = 0 ∧ log.PaidStatus = false := by
  constructor
  · exact ((addDailyWorker_contract
      { SiteID := "s-1", Date := "2024-01-05", WorkerID := none,
        WorkerName := "Anon", newWorker := none } "w-9" "swl-9" c1Store).1
      rfl rfl).1
  · obtain ⟨w, log, heq, hw, -, -, hlid, -, -, -, hsal, hps⟩ :=
      ((addDailyWorker_contract
        { SiteID := "s-1", Date := "2024-01-05", WorkerID := none,
          WorkerName := "New Guy",
          newWorker := some { WorkerName := "New Guy",
                              DefaultDailyWage := 700 } } "w-9" "swl-9"
        c1Store).2)
        { WorkerName := "New Guy", DefaultDailyWage := 700 } rfl (by decide)
    exact ⟨w, log, heq, hw, hlid, hsal, hps⟩

/-- C8. `addDailyLog` never fails — it performs no validation of the
site reference — and appends exactly one entry carrying the generated id and
the given site, date and text, leaving everything else unchanged. -/
theorem addDailyLog_total (d : DailyLogInput) (uuid : String) (st : Store) :
    addDailyLog d uuid st
      = (.ok { LogID := uuid, SiteID := d.SiteID, Date := d.Date,
               LogEntry := d.LogEntry },
         { st with dailyLogs := st.dailyLogs
             ++ [{ LogID := uuid, SiteID := d.SiteID, Date := d.Date,
                   LogEntry := d.LogEntry }] }) := rfl

lemma mem_onlineSiteIds (st : Store) (sid : String) :
    (((st.sites.filter (fun s => s.Status == .online)).map
        (fun s => s.SiteID)).contains sid) = true
    ↔ ∃ s, s ∈ st.sites ∧ s.SiteID = sid ∧ s.Status = .online := by
  constructor
  · intro h
    have hmem : sid ∈ (st.sites.filter (fun s => s.Status == .online)).map
        (fun s => s.SiteID) := by simpa using h
    obtain ⟨s, hsf, rfl⟩ := List.mem_map.mp hmem
    obtain ⟨hs, hstat⟩ := List.mem_filter.mp hsf
    exact ⟨s, hs, rfl, by simpa using hstat⟩
  · rintro ⟨s, hs, rfl, hstat⟩
    have hsf : s ∈ st.sites.filter (fun s => s.Status == .online) :=
      List.mem_filter.mpr ⟨hs, by simp [hstat]⟩
    simpa using List.mem_map.mpr ⟨s, hsf, rfl⟩

/-- C3. An entry is in `getTodayWorkers` exactly when it is the
enrichment of a stored worker log dated today whose site id belongs to an
Online site; in particular a log all of whose matching sites are Offline is
never included, today or not. -/
theorem getTodayWorkers_today_online (today : String) (st : Store) :
    (∀ t, t ∈ getTodayWorkers today st ↔
      ∃ log, log ∈ st.siteWorkerLogs ∧ log.Date = today
        ∧ (∃ s, s ∈ st.sites ∧ s.SiteID = log.SiteID ∧ s.Status = .online)
        ∧ t = enrichTodayWorker st log)
    ∧ (∀ log : SiteWorkerLog,
        (∀ s, s ∈ st.sites → s.SiteID = log.SiteID → s.Status = .offline) →
        enrichTodayWorker st log ∉ getTodayWorkers today st) := by
  have hchar : ∀ t, t ∈ getTodayWorkers today st ↔
      ∃ log, log ∈ st.siteWorkerLogs ∧ log.Date = today
        ∧ (∃ s, s ∈ st.sites ∧ s.SiteID = log.SiteID ∧ s.Status = .online)
        ∧ t = enrichTodayWorker st log := by
    intro t
    simp only [getTodayWorkers, List.mem_map, List.mem_filter,
      Bool.and_eq_true, beq_iff_eq]
    constructor
    · rintro ⟨log, ⟨hmem, hdate, hcont⟩, rfl⟩
      exact ⟨log, hmem, hdate, (mem_onlineSiteIds st log.SiteID).mp hcont, rfl⟩
    · rintro ⟨log, hmem, hdate, hex, rfl⟩
      exact ⟨log, ⟨hmem, hdate, (mem_onlineSiteIds st log.SiteID).mpr hex⟩, rfl⟩
  refine ⟨hchar, ?_⟩
  intro log hoff hmem
  obtain ⟨log', -, -, ⟨s, hs, hsid, hstat⟩, heq⟩ := (hchar _).mp hmem
  have hlog : log = log' := congrArg TodayWorker.toSiteWorkerLog heq
  rw [hoff s hs (hlog ▸ hsid)] at hstat
  exact SiteStatus.noConfusion hstat

/-- Concrete instance of C3 on `c3Store`: today's log on Online site s-1
appears, today's log on Offline site s-2 does not. -/
theorem getTodayWorkers_today_online_witness :
    enrichTodayWorker c3Store c3LogOnline
        ∈ getTodayWorkers "2024-01-05" c3Store
    ∧ enrichTodayWorker c3Store c3LogOffline
        ∉ getTodayWorkers "2024-01-05" c3Store := by
  constructor
  · exact ((getTodayWorkers_today_online "2024-01-05" c3Store).1 _).mpr
      ⟨c3LogOnline, by decide, rfl,
       ⟨{ SiteID := "s-1", SiteName := "A", Location := "L",
          OwnerName := "O", OwnerContact := "C", Budget := 1,
          TotalArea := "T", Status := .online, AmountReceived := 0 },
        by decide, rfl, rfl⟩, rfl⟩
  · exact (getTodayWorkers_today_online "2024-01-05" c3Store).2 c3LogOffline
      (by decide)

/-- C4. Every entry of `getTodayWorkers` is an enrichment of a stored
worker log; its `WorkerName` is the log's frozen copy, while its
`DefaultDailyWage` is the wage of the worker found in the master list at
call time. -/
theorem getTodayWorkers_live_wage (today : String) (st : Store) :
    ∀ t, t ∈ getTodayWorkers today st →
      t.toSiteWorkerLog ∈ st.siteWorkerLogs
      ∧ t.WorkerName = t.toSiteWorkerLog.WorkerName
      ∧ ∀ w, st.workers.find? (fun x => x.WorkerID == t.toSiteWorkerLog.WorkerID)
            = some w →
          t.DefaultDailyWage = w.DefaultDailyWage := by
  intro t ht
  simp only [getTodayWorkers, List.mem_map, List.mem_filter,
    Bool.and_eq_true, beq_iff_eq] at ht
  obtain ⟨log, ⟨hmem, -, -⟩, rfl⟩ := ht
  refine ⟨hmem, rfl, ?_⟩
  intro w hw
  have hw' : st.workers.find? (fun x => x.WorkerID == log.WorkerID) = some w := hw
  simp only [enrichTodayWorker, hw', Option.map_some']
  exact jsOrNum_some_zero w.DefaultDailyWage

/-- Concrete instance of C4 on `c4Store`: the view shows the current master
wage 950 while keeping the frozen name copy "Ramesh Kumar". -/
theorem getTodayWorkers_live_wage_witness :
    enrichTodayWorker c4Store c4Log ∈ getTodayWorkers "2024-01-05" c4Store
    ∧ (enrichTodayWorker c4Store c4Log).DefaultDailyWage = 950
    ∧ (enrichTodayWorker c4Store c4Log).WorkerName = "Ramesh Kumar" := by
  refine ⟨by decide, ?_, ?_⟩
  · exact (getTodayWorkers_live_wage "2024-01-05" c4Store _ (by decide)).2.2
      { WorkerID := "w-1", WorkerName := "Ramesh K.", DefaultDailyWage := 950 }
      (by decide)
  · exact (getTodayWorkers_live_wage "2024-01-05" c4Store _ (by decide)).2.1

lemma filter_offline_length (l : List Site) :
    (l.filter (fun s => s.Status == SiteStatus.offline)).length
      = l.length - (l.filter (fun s => s.Status == SiteStatus.online)).length := by
  induction l with
  | nil => rfl
  | cons s rest ih =>
    have hle : (rest.filter (fun s => s.Status == SiteStatus.online)).length
        ≤ rest.length := List.length_filter_le _ _
    cases hs : s.Status <;> simp [List.filter_cons, hs, ih]
    omega

lemma dashStep_foldl (todayStr : String) (m y : Int) (date : α → String)
    (val : α → Int) :
    ∀ (l : List α) (a b : Int),
      l.foldl (fun acc x => dashStep todayStr m y (date x) (val x) acc) (a, b)
      = (a + ((l.filter (fun x => date x == todayStr)).map val).sum,
         b + ((l.filter (fun x => monthMatches (date x) m y)).map val).sum)
  | [], a, b => by simp
  | x :: l, a, b => by
    have ih := dashStep_foldl todayStr m y date val l
    have hstep : dashStep todayStr m y (date x) (val x) (a, b)
        = (if date x == todayStr then a + val x else a,
           if monthMatches (date x) m y then b + val x else b) := by
      cases hd : (date x == todayStr) <;>
        cases hmo : monthMatches (date x) m y <;>
        simp [dashStep, hd, hmo, jsOrNum_some_zero]
    rw [List.foldl_cons, hstep, ih, List.filter_cons, List.filter_cons]
    cases hd : (date x == todayStr) <;>
      cases hmo : monthMatches (date x) m y <;>
      simp only [hd, hmo, if_true, if_false, Bool.false_eq_true, ite_true,
        ite_false, List.map_cons, List.sum_cons] <;>
      exact congrArg₂ Prod.mk (by ring) (by ring)

/-- C5. The dashboard reports: the count of Online sites, the count of
Offline sites, the counts of worker and material logs whose date string is
today's, today's expense as the sum of today's `SalaryPaid` plus today's
`TotalCost`, and the month expense as the same sums over logs whose parsed
date has the current month and year. -/
theorem getProfileDashboardData_spec (todayStr : String) (m y : Int)
    (st : Store) :
    (getProfileDashboardData todayStr m y st).onlineSites
      = (st.sites.filter (fun s => s.Status == SiteStatus.online)).length
    ∧ (getProfileDashboardData todayStr m y st).offlineSites
      = (st.sites.filter (fun s => s.Status == SiteStatus.offline)).length
    ∧ (getProfileDashboardData todayStr m y st).todayWorkers
      = (st.siteWorkerLogs.filter (fun l => l.Date == todayStr)).length
    ∧ (getProfileDashboardData todayStr m y st).todayMaterials
      = (st.siteMaterialLogs.filter (fun l => l.Date == todayStr)).length
    ∧ (getProfileDashboardData todayStr m y st).todayExpense
      = ((st.siteWorkerLogs.filter (fun l => l.Date == todayStr)).map
          (fun l => l.SalaryPaid)).sum
        + ((st.siteMaterialLogs.filter (fun l => l.Date == todayStr)).map
            (fun l => l.TotalCost)).sum
    ∧ (getProfileDashboardData todayStr m y st).monthExpense
      = ((st.siteWorkerLogs.filter (fun l => monthMatches l.Date m y)).map
          (fun l => l.SalaryPaid)).sum
        + ((st.siteMaterialLogs.filter (fun l => monthMatches l.Date m y)).map
            (fun l => l.TotalCost)).sum := by
  refine ⟨rfl, (filter_offline_length st.sites).symm, rfl, rfl, ?_, ?_⟩
  · show (st.siteMaterialLogs.foldl
      (fun acc log => dashStep todayStr m y log.Date log.TotalCost acc)
      (st.siteWorkerLogs.foldl
        (fun acc log => dashStep todayStr m y log.Date log.SalaryPaid acc)
        (0, 0))).1 = _
    rw [dashStep_foldl todayStr m y (fun l : SiteWorkerLog => l.Date)
        (fun l => l.SalaryPaid),
        dashStep_foldl todayStr m y (fun l : SiteMaterialLog => l.Date)
        (fun l => l.TotalCost)]
    simp [add_comm]
  · show (st.siteMaterialLogs.foldl
      (fun acc log => dashStep todayStr m y log.Date log.TotalCost acc)
      (st.siteWorkerLogs.foldl
        (fun acc log => dashStep todayStr m y log.Date log.SalaryPaid acc)
        (0, 0))).2 = _
    rw [dashStep_foldl todayStr m y (fun l : SiteWorkerLog => l.Date)
        (fun l => l.SalaryPaid),
        dashStep_foldl todayStr m y (fun l : SiteMaterialLog => l.Date)
        (fun l => l.TotalCost)]
    simp [add_comm]

/-- C9. `uploadFile` on an existing site with a file category other than
"agreement", "plan" or "gallery" silently succeeds and leaves the entire
store unchanged. -/
theorem uploadFile_unknown_category_noop
    (siteId fileType description uuid imgUuid today : String) (st : Store)
    (hsite : (st.sites.find? (fun s => s.SiteID == siteId)).isSome = true)
    (h1 : fileType ≠ "agreement") (h2 : fileType ≠ "plan")
    (h3 : fileType ≠ "gallery") :
    uploadFile siteId fileType description uuid imgUuid today st
      = (.ok (), st) := by
  simp [uploadFile, hsite, h1, h2, h3]

/-- Concrete instance of C9: the category "document" on `c1Store`. -/
theorem uploadFile_unknown_category_noop_witness :
    uploadFile "s-1" "document" "desc" "u-1" "i-1" "2024-01-05" c1Store
      = (.ok (), c1Store) :=
  uploadFile_unknown_category_noop "s-1" "document" "desc" "u-1" "i-1"
    "2024-01-05" c1Store (by decide) (by decide) (by decide) (by decide)

/-- C10. A material log whose `SiteID` matches no site still appears in
`getOverallMaterialsLog`, with `SiteName` reported as "Unknown Site". -/
theorem getOverallMaterialsLog_unknown_site (st : Store)
    (log : SiteMaterialLog) (hmem : log ∈ st.siteMaterialLogs)
    (hnone : st.sites.find? (fun s => s.SiteID == log.SiteID) = none) :
    ∃ t, t ∈ getOverallMaterialsLog st ∧ t.toSiteMaterialLog = log
      ∧ t.SiteName = "Unknown Site" := by
  refine ⟨{ toSiteMaterialLog := log,
            SiteName := jsOrStr ((st.sites.find? (fun s =>
              s.SiteID == log.SiteID)).map (fun s => s.SiteName))
              "Unknown Site" }, ?_, rfl, ?_⟩
  · simp only [getOverallMaterialsLog, List.mem_map]
    exact ⟨log, (List.perm_insertionSort _ _).mem_iff.mpr hmem, rfl⟩
  · simp [hnone, jsOrStr]

/-- Concrete instance of C10: a store whose single material log references
the absent site "s-404". -/
theorem getOverallMaterialsLog_unknown_site_witness :
    ∃ t, t ∈ getOverallMaterialsLog
        { sites := [], workers := [], materials := [], dailyLogs := [],
          siteWorkerLogs := [],
          siteMaterialLogs :=
            [{ LogID := "sml-1", SiteID := "s-404", Date := "2024-01-05",
               MaterialID := "m-1", MaterialName := "Cement", Unit := "bag",
               QuantityUsed := 10, DefaultValue := 100, TotalCost := 1000 }],
          galleryImages := [] }
      ∧ t.toSiteMaterialLog
        = { LogID := "sml-1", SiteID := "s-404", Date := "2024-01-05",
            MaterialID := "m-1", MaterialName := "Cement", Unit := "bag",
            QuantityUsed := 10, DefaultValue := 100, TotalCost := 1000 }
      ∧ t.SiteName = "Unknown Site" :=
  getOverallMaterialsLog_unknown_site
    { sites := [], workers := [], materials := [], dailyLogs := [],
      siteWorkerLogs := [],
      siteMaterialLogs :=
        [{ LogID := "sml-1", SiteID := "s-404", Date := "2024-01-05",
           MaterialID := "m-1", MaterialName := "Cement", Unit := "bag",
           QuantityUsed := 10, DefaultValue := 100, TotalCost := 1000 }],
      galleryImages := [] }
    { LogID := "sml-1", SiteID := "s-404", Date := "2024-01-05",
      MaterialID := "m-1", MaterialName := "Cement", Unit := "bag",
      QuantityUsed := 10, DefaultValue := 100, TotalCost := 1000 }
    (by decide) (by decide)

end Arrahman
